import Mathlib

/-!
Verification of the AI control plane against its specification.

The definitions below are a shallow embedding of the Python sources of the
repository: the decision engine (`app/ai_engine/ai_engine.py`), the percentile
and reservoir logic of the real-time aggregator (`app/realtime_aggregates.py`),
the hourly and daily rollup jobs (`app/jobs/aggregation_jobs.py`), the signal
ingest handler (`app/router/signals.py`) together with the queue consumer
(`app/queue/consumer.py`), and the threshold store
(`app/ai_engine/threshold_manager.py`, `app/ai_engine/schemas.py`).

Python floats are modelled as rationals, machine ints as `Int`/`Nat`, and the
relevant database / Redis effects as explicit values returned by the embedded
functions.
-/

namespace ControlPlane

/-- The decision record built by the engine: the six boolean fields of the
`state.decision` dictionaries in `ai_engine.py` (reasoning strings omitted). -/
structure Verdict where
  cache_enabled : Bool
  circuit_breaker : Bool
  rate_limit_customer : Bool
  queue_deferral : Bool
  load_shedding : Bool
  send_alert : Bool
deriving DecidableEq

/-- Number of the four mutually exclusive action flags that are set in a
verdict (`rate_limit_customer`, `queue_deferral`, `load_shedding`,
`circuit_breaker`). -/
def actionFlagCount (v : Verdict) : Nat :=
  (if v.rate_limit_customer then 1 else 0) + (if v.queue_deferral then 1 else 0) +
    (if v.load_shedding then 1 else 0) + (if v.circuit_breaker then 1 else 0)

/-- The per-endpoint thresholds record loaded by `get_all_thresholds`
(`threshold_manager.py`): the five tunable values the engine reads. -/
structure Thresholds where
  cache_latency_ms : ℚ
  circuit_breaker_error_rate : ℚ
  queue_deferral_rpm : ℚ
  load_shedding_rpm : ℚ
  rate_limit_customer_rpm : ℚ

/-- The `DEFAULTS` dictionary of `threshold_manager.py`. -/
def DEFAULTS : Thresholds :=
  { cache_latency_ms := 500
    circuit_breaker_error_rate := 3/10
    queue_deferral_rpm := 80
    load_shedding_rpm := 150
    rate_limit_customer_rpm := 15 }

/-- Tier 3 of `get_ai_tuned_decision` (`ai_engine.py` lines 375-419): the
caching / circuit-breaker rules evaluated once no tier-1 or tier-2 rule
returned.  Branch order and the produced flag sets follow the source:
only the breaker branch sets `send_alert`; the two monitor/healthy
branches set no flag. -/
def aiTunedTier3 (th : Thresholds) (avg_latency error_rate : ℚ) : Verdict :=
  if error_rate ≥ th.circuit_breaker_error_rate then
    ⟨false, true, false, false, false, true⟩
  else if error_rate ≥ th.circuit_breaker_error_rate * (1/2) ∧
      avg_latency ≥ th.cache_latency_ms * (8/10) then
    ⟨true, false, false, false, false, false⟩
  else if avg_latency ≥ th.cache_latency_ms then
    ⟨true, false, false, false, false, false⟩
  else
    ⟨false, false, false, false, false, false⟩

/-- `get_ai_tuned_decision` (`ai_engine.py` lines 259-419) with the thresholds
already loaded: tier 1 per-customer rate limit, tier 2 global capacity
management (critical priority skips it), tier 3 caching / breaker.  Each
branch returns the decision dictionary written at that return site. -/
def get_ai_tuned_decision (th : Thresholds)
    (avg_latency error_rate requests_per_minute customer_requests_per_minute : ℚ)
    (priority : String) : Verdict :=
  if customer_requests_per_minute > th.rate_limit_customer_rpm then
    ⟨false, false, true, false, false, false⟩
  else if priority = "critical" then
    aiTunedTier3 th avg_latency error_rate
  else if requests_per_minute > th.load_shedding_rpm ∧
      (priority = "low" ∨ priority = "medium") then
    ⟨true, false, false, false, true, false⟩
  else if requests_per_minute > th.load_shedding_rpm * (8/10) ∧ priority = "low" then
    ⟨true, false, false, false, true, false⟩
  else if requests_per_minute > th.queue_deferral_rpm ∧
      (priority = "low" ∨ priority = "medium") then
    ⟨true, false, false, true, false, false⟩
  else
    aiTunedTier3 th avg_latency error_rate

/-- Rules 1-5 at the end of `decide_node` (`ai_engine.py` lines 137-191):
the fixed-threshold caching / circuit-breaker logic plus the final decision
dictionary built from the collected actions. -/
def decideNodeTier3 (avg_latency error_rate : ℚ) : Verdict :=
  if error_rate ≥ 3/10 then
    ⟨false, true, false, false, false, true⟩
  else if error_rate ≥ 15/100 ∧ avg_latency ≥ 400 then
    ⟨true, false, false, false, false, false⟩
  else if avg_latency ≥ 500 then
    ⟨true, false, false, false, false, false⟩
  else
    ⟨false, false, false, false, false, false⟩

/-- `decide_node` (`ai_engine.py` lines 43-191): the hardcoded-threshold
variant of the engine.  The tier-2 chain is the literal `elif` chain of the
source, including the `80 < total_rpm <= 120` bound on the queue branch. -/
def decide_node (avg_latency error_rate total_rpm customer_rpm : ℚ)
    (priority : String) : Verdict :=
  if customer_rpm > 15 then
    ⟨false, false, true, false, false, false⟩
  else if priority = "critical" then
    decideNodeTier3 avg_latency error_rate
  else if total_rpm > 150 ∧ (priority = "low" ∨ priority = "medium") then
    ⟨true, false, false, false, true, false⟩
  else if total_rpm > 120 ∧ priority = "low" then
    ⟨true, false, false, false, true, false⟩
  else if 80 < total_rpm ∧ total_rpm ≤ 120 ∧ (priority = "low" ∨ priority = "medium") then
    ⟨true, false, false, true, false, false⟩
  else
    decideNodeTier3 avg_latency error_rate

lemma aiTunedTier3_flags (th : Thresholds) (lat err : ℚ) :
    (aiTunedTier3 th lat err).rate_limit_customer = false ∧
      (aiTunedTier3 th lat err).queue_deferral = false ∧
      (aiTunedTier3 th lat err).load_shedding = false := by
  unfold aiTunedTier3
  split
  · exact ⟨rfl, rfl, rfl⟩
  · split
    · exact ⟨rfl, rfl, rfl⟩
    · split
      · exact ⟨rfl, rfl, rfl⟩
      · exact ⟨rfl, rfl, rfl⟩

lemma decideNodeTier3_flags (lat err : ℚ) :
    (decideNodeTier3 lat err).rate_limit_customer = false ∧
      (decideNodeTier3 lat err).queue_deferral = false ∧
      (decideNodeTier3 lat err).load_shedding = false := by
  unfold decideNodeTier3
  split
  · exact ⟨rfl, rfl, rfl⟩
  · split
    · exact ⟨rfl, rfl, rfl⟩
    · split
      · exact ⟨rfl, rfl, rfl⟩
      · exact ⟨rfl, rfl, rfl⟩

/-- C1: whenever the per-client requests-per-minute exceeds the per-client
limit, the verdict is exactly rate_limit_customer=true with cache, breaker,
queue and shed all false, independently of priority, global rpm, error rate
and latency: the tier-1 check returns first.  The two engine variants are
stated as separate implications, each under its own per-client limit (the
tuned threshold for `get_ai_tuned_decision`, the hardcoded 15 for
`decide_node`). -/
theorem tier1_rate_limit_fires_first (th : Thresholds)
    (lat err rpm crpm : ℚ) (pr : String) :
    (crpm > th.rate_limit_customer_rpm →
        get_ai_tuned_decision th lat err rpm crpm pr =
          ⟨false, false, true, false, false, false⟩) ∧
      (crpm > 15 →
        decide_node lat err rpm crpm pr = ⟨false, false, true, false, false, false⟩) := by
  constructor
  · intro h
    unfold get_ai_tuned_decision
    rw [if_pos h]
  · intro h15
    unfold decide_node
    rw [if_pos h15]

/-- Witness for C1: the spec scenario S1 (per-client rpm 20, limit 15). -/
theorem tier1_rate_limit_fires_first_witness :
    get_ai_tuned_decision DEFAULTS 100 (1/100) 50 20 ("high") =
        ⟨false, false, true, false, false, false⟩ ∧
      decide_node 100 (1/100) 50 20 ("high") = ⟨false, false, true, false, false, false⟩ :=
  ⟨(tier1_rate_limit_fires_first DEFAULTS 100 (1/100) 50 20 ("high")).1
      (by norm_num [DEFAULTS]),
    (tier1_rate_limit_fires_first DEFAULTS 100 (1/100) 50 20 ("high")).2 (by norm_num)⟩

/-- C2: a critical-priority input that passes the tier-1 check is never queued
or shed for any global rpm: the engine falls through to the tier-3
(error-rate / latency) rules.  The two engine variants are stated as
separate implications, each under its own per-client limit. -/
theorem critical_priority_bypasses_tier2 (th : Thresholds)
    (lat err rpm crpm : ℚ) :
    (crpm ≤ th.rate_limit_customer_rpm →
        get_ai_tuned_decision th lat err rpm crpm ("critical") =
          aiTunedTier3 th lat err) ∧
      (aiTunedTier3 th lat err).queue_deferral = false ∧
      (aiTunedTier3 th lat err).load_shedding = false ∧
      (crpm ≤ 15 →
        decide_node lat err rpm crpm ("critical") = decideNodeTier3 lat err) ∧
      (decideNodeTier3 lat err).queue_deferral = false ∧
      (decideNodeTier3 lat err).load_shedding = false := by
  refine ⟨?_, (aiTunedTier3_flags th lat err).2.1, (aiTunedTier3_flags th lat err).2.2,
    ?_, (decideNodeTier3_flags lat err).2.1, (decideNodeTier3_flags lat err).2.2⟩
  · intro h
    unfold get_ai_tuned_decision
    rw [if_neg (not_lt.mpr h), if_pos rfl]
  · intro h15
    unfold decide_node
    rw [if_neg (not_lt.mpr h15), if_pos rfl]

/-- Witness for C2: the spec scenario S4 (global rpm 200, critical priority,
healthy latency and error rate). -/
theorem critical_priority_bypasses_tier2_witness :
    get_ai_tuned_decision DEFAULTS 100 (1/100) 200 2 ("critical") =
        aiTunedTier3 DEFAULTS 100 (1/100) ∧
      (aiTunedTier3 DEFAULTS 100 (1/100)).queue_deferral = false ∧
      (aiTunedTier3 DEFAULTS 100 (1/100)).load_shedding = false ∧
      decide_node 100 (1/100) 200 2 ("critical") = decideNodeTier3 100 (1/100) ∧
      (decideNodeTier3 100 (1/100)).queue_deferral = false ∧
      (decideNodeTier3 100 (1/100)).load_shedding = false :=
  ⟨(critical_priority_bypasses_tier2 DEFAULTS 100 (1/100) 200 2).1
      (by norm_num [DEFAULTS]),
    (critical_priority_bypasses_tier2 DEFAULTS 100 (1/100) 200 2).2.1,
    (critical_priority_bypasses_tier2 DEFAULTS 100 (1/100) 200 2).2.2.1,
    (critical_priority_bypasses_tier2 DEFAULTS 100 (1/100) 200 2).2.2.2.1 (by norm_num),
    (critical_priority_bypasses_tier2 DEFAULTS 100 (1/100) 200 2).2.2.2.2.1,
    (critical_priority_bypasses_tier2 DEFAULTS 100 (1/100) 200 2).2.2.2.2.2⟩

/-- C3: for a low or medium priority input that passes the tier-1 check, if
the global rpm exceeds the queue threshold and neither load-shedding rule
(T2a: rpm above shed-rpm with low/medium priority; T2b: rpm above 0.8·shed-rpm
with low priority) fires, the threshold-parameterised engine queues the
request with caching enabled — the T2c predicate has no upper bound on the
global rpm beyond T2a/T2b not firing. -/
theorem tier2c_queue_no_upper_bound (th : Thresholds)
    (lat err rpm crpm : ℚ) (pr : String)
    (hc : crpm ≤ th.rate_limit_customer_rpm)
    (hpr : pr = "low" ∨ pr = "medium")
    (hq : rpm > th.queue_deferral_rpm)
    (hT2a : ¬ (rpm > th.load_shedding_rpm ∧ (pr = "low" ∨ pr = "medium")))
    (hT2b : ¬ (rpm > th.load_shedding_rpm * (8/10) ∧ pr = "low")) :
    get_ai_tuned_decision th lat err rpm crpm pr =
      ⟨true, false, false, true, false, false⟩ := by
  have hcrit : ¬ (pr = "critical") := by
    rcases hpr with h | h <;> simp [h]
  unfold get_ai_tuned_decision
  rw [if_neg (not_lt.mpr hc), if_neg hcrit, if_neg hT2a, if_neg hT2b, if_pos ⟨hq, hpr⟩]

/-- Witness for C3: the spec scenario S3 (global rpm 100, shed 150, queue 80,
low priority). -/
theorem tier2c_queue_no_upper_bound_witness :
    get_ai_tuned_decision DEFAULTS 100 (1/100) 100 0 ("low") =
      ⟨true, false, false, true, false, false⟩ :=
  tier2c_queue_no_upper_bound DEFAULTS 100 (1/100) 100 0 ("low") (by norm_num [DEFAULTS])
    (Or.inl rfl) (by norm_num [DEFAULTS]) (by norm_num [DEFAULTS]) (by norm_num [DEFAULTS])

lemma aiTunedTier3_exclusive (th : Thresholds) (lat err : ℚ) :
    actionFlagCount (aiTunedTier3 th lat err) ≤ 1 ∧
      ((aiTunedTier3 th lat err).send_alert = true →
        (aiTunedTier3 th lat err).circuit_breaker = true) := by
  unfold aiTunedTier3
  split
  · decide
  · split
    · decide
    · split
      · decide
      · decide

lemma decideNodeTier3_exclusive (lat err : ℚ) :
    actionFlagCount (decideNodeTier3 lat err) ≤ 1 ∧
      ((decideNodeTier3 lat err).send_alert = true →
        (decideNodeTier3 lat err).circuit_breaker = true) := by
  unfold decideNodeTier3
  split
  · decide
  · split
    · decide
    · split
      · decide
      · decide

/-- C10: every verdict of either engine variant sets at most one of the four
action flags, and `send_alert` is set only together with `circuit_breaker`. -/
theorem verdict_action_flags_exclusive (th : Thresholds)
    (lat err rpm crpm : ℚ) (pr : String) :
    (actionFlagCount (get_ai_tuned_decision th lat err rpm crpm pr) ≤ 1 ∧
      ((get_ai_tuned_decision th lat err rpm crpm pr).send_alert = true →
        (get_ai_tuned_decision th lat err rpm crpm pr).circuit_breaker = true)) ∧
      (actionFlagCount (decide_node lat err rpm crpm pr) ≤ 1 ∧
        ((decide_node lat err rpm crpm pr).send_alert = true →
          (decide_node lat err rpm crpm pr).circuit_breaker = true)) := by
  constructor
  · unfold get_ai_tuned_decision
    split
    · decide
    · split
      · exact aiTunedTier3_exclusive th lat err
      · split
        · decide
        · split
          · decide
          · split
            · decide
            · exact aiTunedTier3_exclusive th lat err
  · unfold decide_node
    split
    · decide
    · split
      · exact decideNodeTier3_exclusive lat err
      · split
        · decide
        · split
          · decide
          · split
            · decide
            · exact decideNodeTier3_exclusive lat err

/-- Witness for C10: the theorem applied to a concrete breaker-tripping
input. -/
theorem verdict_action_flags_exclusive_witness :
    (actionFlagCount (get_ai_tuned_decision DEFAULTS 600 (1/2) 100 0 ("medium")) ≤ 1 ∧
      ((get_ai_tuned_decision DEFAULTS 600 (1/2) 100 0 ("medium")).send_alert = true →
        (get_ai_tuned_decision DEFAULTS 600 (1/2) 100 0 ("medium")).circuit_breaker =
          true)) ∧
      (actionFlagCount (decide_node 600 (1/2) 100 0 ("medium")) ≤ 1 ∧
        ((decide_node 600 (1/2) 100 0 ("medium")).send_alert = true →
          (decide_node 600 (1/2) 100 0 ("medium")).circuit_breaker = true)) :=
  verdict_action_flags_exclusive DEFAULTS 600 (1/2) 100 0 ("medium")

/-! ### Percentile query (`_percentile` in `app/realtime_aggregates.py`) -/

/-- The index `f = int(k)` of `_percentile`, where `k = (p / 100) * (n - 1)`.
For the arguments in use `k ≥ 0`, so Python truncation equals the floor. -/
def percentileIdxF (n p : ℕ) : ℕ := (⌊((p : ℚ) / 100) * ((n : ℚ) - 1)⌋).toNat

/-- `_percentile` (`realtime_aggregates.py` lines 38-47): linear-interpolation
percentile over a sorted sample; `c = f + 1 if f + 1 < n else f`; returns 0 on
the empty list. -/
def percentile (sorted_data : List ℚ) (p : ℕ) : ℚ :=
  if sorted_data = [] then 0
  else
    sorted_data.getD (percentileIdxF sorted_data.length p) 0 +
      (((p : ℚ) / 100) * ((sorted_data.length : ℚ) - 1) -
          (percentileIdxF sorted_data.length p : ℚ)) *
        (sorted_data.getD
            (if percentileIdxF sorted_data.length p + 1 < sorted_data.length then
              percentileIdxF sorted_data.length p + 1
            else percentileIdxF sorted_data.length p) 0 -
          sorted_data.getD (percentileIdxF sorted_data.length p) 0)

/-- The formula stated by the spec, for comparison with `percentile`:
`S[f] + d·(S[min(f+1, n−1)] − S[f])` with `k = (q/100)(n−1)`, `f = ⌊k⌋`,
`d = k − f`, and 0 on the empty sample. -/
def percentileSpec (S : List ℚ) (q : ℕ) : ℚ :=
  if S = [] then 0
  else
    S.getD (percentileIdxF S.length q) 0 +
      (((q : ℚ) / 100) * ((S.length : ℚ) - 1) - (percentileIdxF S.length q : ℚ)) *
        (S.getD (min (percentileIdxF S.length q + 1) (S.length - 1)) 0 -
          S.getD (percentileIdxF S.length q) 0)

lemma percentileIdxF_le {n q : ℕ} (hn : 1 ≤ n) (hq : q ≤ 100) :
    percentileIdxF n q ≤ n - 1 := by
  unfold percentileIdxF
  rw [Int.toNat_le]
  have hq1 : ((q : ℚ) / 100) ≤ 1 := by
    rw [div_le_one (by norm_num)]
    exact_mod_cast hq
  have hn0 : (0 : ℚ) ≤ (n : ℚ) - 1 := by
    have h1 : (1 : ℚ) ≤ (n : ℚ) := by exact_mod_cast hn
    linarith
  have h1 : ((q : ℚ) / 100) * ((n : ℚ) - 1) ≤ (n : ℚ) - 1 := by
    calc ((q : ℚ) / 100) * ((n : ℚ) - 1) ≤ 1 * ((n : ℚ) - 1) :=
          mul_le_mul_of_nonneg_right hq1 hn0
      _ = (n : ℚ) - 1 := one_mul _
  have h2 : ⌊((q : ℚ) / 100) * ((n : ℚ) - 1)⌋ ≤ ⌊((n : ℚ) - 1)⌋ := Int.floor_mono h1
  have h3 : ⌊((n : ℚ) - 1)⌋ = (n : ℤ) - 1 := by
    rw [show ((n : ℚ) - 1) = (((n : ℤ) - 1 : ℤ) : ℚ) by push_cast; ring]
    exact Int.floor_intCast _
  have h4 : ((n - 1 : ℕ) : ℤ) = (n : ℤ) - 1 := by omega
  omega

/-- C9: for `q ∈ {50, 95, 99}` the percentile query computes exactly the
spec formula `S[f] + d·(S[min(f+1, n−1)] − S[f])` on every sample, and
returns 0 on the empty sample. -/
theorem percentile_matches_spec (S : List ℚ) (q : ℕ)
    (hq : q = 50 ∨ q = 95 ∨ q = 99) :
    percentile S q = percentileSpec S q ∧ percentile ([] : List ℚ) q = 0 := by
  have hq100 : q ≤ 100 := by rcases hq with h | h | h <;> omega
  refine ⟨?_, by simp [percentile]⟩
  by_cases hS : S = []
  · simp [percentile, percentileSpec, hS]
  · have hn : 1 ≤ S.length := List.length_pos.mpr hS
    have hf : percentileIdxF S.length q ≤ S.length - 1 := percentileIdxF_le hn hq100
    have hc : (if percentileIdxF S.length q + 1 < S.length then
          percentileIdxF S.length q + 1
        else percentileIdxF S.length q) =
        min (percentileIdxF S.length q + 1) (S.length - 1) := by
      by_cases h : percentileIdxF S.length q + 1 < S.length
      · rw [if_pos h, Nat.min_eq_left (by omega)]
      · rw [if_neg h, Nat.min_eq_right (by omega)]
        omega
    unfold percentile percentileSpec
    rw [if_neg hS, if_neg hS, hc]

/-- Witness for C9: the theorem applied to a concrete four-element sample at
q = 95. -/
theorem percentile_matches_spec_witness :
    percentile [10, 20, 30, 40] 95 = percentileSpec [10, 20, 30, 40] 95 ∧
      percentile ([] : List ℚ) 95 = 0 :=
  percentile_matches_spec [10, 20, 30, 40] 95 (Or.inr (Or.inl rfl))

/-! ### Hourly rollup (`aggregate_signals_hourly` in `app/jobs/aggregation_jobs.py`) -/

/-- A raw signal as far as the rollup jobs read it: its status string and its
latency.  The status domain used by the ingest path, the consumer and the
decision engine is the two-element set of strings naming success and error. -/
structure Signal where
  status : String
  latency_ms : ℚ
deriving DecidableEq

/-- The error test of the hourly rollup (`aggregation_jobs.py` line 71):
`s.status.startswith(('4', '5'))`, i.e. the first character of the status is
the digit 4 or the digit 5. -/
def signalIsErrorHourly (s : Signal) : Bool :=
  match s.status.data with
  | [] => false
  | c :: _ => c == '4' || c == '5'

/-- `error_count` of one hourly rollup row (`aggregation_jobs.py` line 92). -/
def hourly_error_count (signals : List Signal) : ℕ :=
  (signals.filter signalIsErrorHourly).length

/-- `total_requests` of one hourly rollup row. -/
def hourly_total_requests (signals : List Signal) : ℕ := signals.length

/-- `success_count` of one hourly rollup row (`n - len(errors)`). -/
def hourly_success_count (signals : List Signal) : ℕ :=
  signals.length - hourly_error_count signals

/-- The error count the spec asks for, for comparison: the number of signals
whose status field is the string naming an error. -/
def statusErrorCount (signals : List Signal) : ℕ :=
  (signals.filter (fun s => s.status == "error")).length

/-- C5: at the failing input — one signal in the bucket whose status is the
string naming an error — the hourly rollup records `error_count = 0` and
`success_count = 1`, while the claimed counts are `error_count = 1` and
`success_count = 0`: the rollup tests for a leading 4 or 5 digit, which never
matches the status domain used by the rest of the system. -/
theorem hourly_error_count_divergence :
    hourly_error_count [⟨"error", 100⟩] = 0 ∧
      statusErrorCount [⟨"error", 100⟩] = 1 ∧
      hourly_total_requests [⟨"error", 100⟩] = 1 ∧
      hourly_success_count [⟨"error", 100⟩] = 1 := by
  decide

/-! ### Daily rollup (`aggregate_signals_daily` in `app/jobs/aggregation_jobs.py`) -/

/-- One stored hourly rollup row, as the daily job reads it.  The percentile
columns are nullable. -/
structure HourlyRow where
  avg_latency_ms : ℚ
  min_latency_ms : ℚ
  max_latency_ms : ℚ
  p50_latency_ms : Option ℚ
  p95_latency_ms : Option ℚ
  p99_latency_ms : Option ℚ
  total_requests : ℕ
  error_count : ℕ
deriving DecidableEq

/-- Python truthiness of a nullable numeric column, as used by the daily
rollup comprehensions `if h.p50_latency_ms`: None and 0 are falsy. -/
def truthy : Option ℚ → Bool
  | none => false
  | some x => decide (x ≠ 0)

/-- The values of a nullable column over the rows where it is truthy. -/
def truthyVals (l : List (Option ℚ)) : List ℚ :=
  l.filterMap (fun o => if truthy o then o else none)

/-- Daily `p50_latency_ms` (`aggregation_jobs.py` line 180): the arithmetic
average of the truthy hourly p50 values, None when no row has one. -/
def daily_p50_latency_ms (rows : List HourlyRow) : Option ℚ :=
  if truthyVals (rows.map (fun h => h.p50_latency_ms)) = [] then none
  else
    some ((truthyVals (rows.map (fun h => h.p50_latency_ms))).sum /
      ((truthyVals (rows.map (fun h => h.p50_latency_ms))).length : ℚ))

/-- Python `max(..., default=None)` over a list of rationals. -/
def foldMaxOpt : List ℚ → Option ℚ
  | [] => none
  | x :: xs => some (xs.foldl max x)

/-- Daily `p95_latency_ms` (`aggregation_jobs.py` line 181): the maximum of
the truthy hourly p95 values, None when no row has one. -/
def daily_p95_latency_ms (rows : List HourlyRow) : Option ℚ :=
  foldMaxOpt (truthyVals (rows.map (fun h => h.p95_latency_ms)))

/-- Daily `p99_latency_ms` (`aggregation_jobs.py` line 182): the maximum of
the truthy hourly p99 values, None when no row has one. -/
def daily_p99_latency_ms (rows : List HourlyRow) : Option ℚ :=
  foldMaxOpt (truthyVals (rows.map (fun h => h.p99_latency_ms)))

/-- C8 counterexample: for a day with two hourly rows whose stored p95 values
are 100 and 200, the daily rollup stores p95 = 200, not the arithmetic
average 150 the claim requires. -/
theorem daily_p95_not_average :
    daily_p95_latency_ms
        [⟨100, 100, 100, some 100, some 100, some 100, 10, 0⟩,
          ⟨200, 200, 200, some 200, some 200, some 200, 10, 0⟩] = some 200 ∧
      daily_p95_latency_ms
          [⟨100, 100, 100, some 100, some 100, some 100, 10, 0⟩,
            ⟨200, 200, 200, some 200, some 200, some 200, 10, 0⟩] ≠
        some ((100 + 200) / 2) := by
  have h : ((100 + 200 : ℚ)) / 2 = 150 := by norm_num
  rw [h]
  decide

lemma foldl_max_mem (x : ℚ) (xs : List ℚ) :
    xs.foldl max x = x ∨ xs.foldl max x ∈ xs := by
  induction xs generalizing x with
  | nil => exact Or.inl rfl
  | cons y ys ih =>
    simp only [List.foldl_cons]
    rcases ih (max x y) with h | h
    · rcases le_total x y with hxy | hxy
      · rw [h, max_eq_right hxy]
        exact Or.inr (List.mem_cons_self _ _)
      · rw [h, max_eq_left hxy]
        exact Or.inl rfl
    · exact Or.inr (List.mem_cons_of_mem _ h)

lemma le_foldl_max (x : ℚ) (xs : List ℚ) :
    x ≤ xs.foldl max x ∧ ∀ y ∈ xs, y ≤ xs.foldl max x := by
  induction xs generalizing x with
  | nil => exact ⟨le_refl x, by intro y hy; cases hy⟩
  | cons z zs ih =>
    simp only [List.foldl_cons]
    refine ⟨le_trans (le_max_left x z) (ih (max x z)).1, ?_⟩
    intro y hy
    rcases List.mem_cons.mp hy with rfl | hy
    · exact le_trans (le_max_right x y) (ih (max x y)).1
    · exact (ih (max x z)).2 y hy

/-- C8, amended: in every daily rollup row, p50 is the arithmetic average of
the present (truthy) hourly p50 values, while p95 and p99 are the maximum of
the present hourly values — an attained upper bound, not an average. -/
theorem daily_percentile_derivation (rows : List HourlyRow) :
    (∀ v : ℚ, daily_p50_latency_ms rows = some v →
        v = (truthyVals (rows.map (fun h => h.p50_latency_ms))).sum /
          ((truthyVals (rows.map (fun h => h.p50_latency_ms))).length : ℚ)) ∧
      (∀ v : ℚ, daily_p95_latency_ms rows = some v →
        v ∈ truthyVals (rows.map (fun h => h.p95_latency_ms)) ∧
          ∀ x ∈ truthyVals (rows.map (fun h => h.p95_latency_ms)), x ≤ v) ∧
      (∀ v : ℚ, daily_p99_latency_ms rows = some v →
        v ∈ truthyVals (rows.map (fun h => h.p99_latency_ms)) ∧
          ∀ x ∈ truthyVals (rows.map (fun h => h.p99_latency_ms)), x ≤ v) := by
  refine ⟨?_, ?_, ?_⟩
  · intro v hv
    unfold daily_p50_latency_ms at hv
    split at hv
    · exact absurd hv (by simp)
    · exact (Option.some_injective _ hv).symm
  · intro v hv
    unfold daily_p95_latency_ms at hv
    cases hl : truthyVals (rows.map (fun h => h.p95_latency_ms)) with
    | nil => rw [hl] at hv; exact absurd hv (by simp [foldMaxOpt])
    | cons a as =>
      rw [hl] at hv
      have hva : as.foldl max a = v := Option.some_injective _ hv
      constructor
      · rcases foldl_max_mem a as with h | h
        · rw [← hva, h]; exact List.mem_cons_self _ _
        · rw [← hva]; exact List.mem_cons_of_mem _ h
      · intro x hx
        rcases List.mem_cons.mp hx with rfl | hx
        · rw [← hva]; exact (le_foldl_max x as).1
        · rw [← hva]; exact (le_foldl_max a as).2 x hx
  · intro v hv
    unfold daily_p99_latency_ms at hv
    cases hl : truthyVals (rows.map (fun h => h.p99_latency_ms)) with
    | nil => rw [hl] at hv; exact absurd hv (by simp [foldMaxOpt])
    | cons a as =>
      rw [hl] at hv
      have hva : as.foldl max a = v := Option.some_injective _ hv
      constructor
      · rcases foldl_max_mem a as with h | h
        · rw [← hva, h]; exact List.mem_cons_self _ _
        · rw [← hva]; exact List.mem_cons_of_mem _ h
      · intro x hx
        rcases List.mem_cons.mp hx with rfl | hx
        · rw [← hva]; exact (le_foldl_max x as).1
        · rw [← hva]; exact (le_foldl_max a as).2 x hx

/-- Witness for the amended C8: the p95 clause applied to the two concrete
rows of the counterexample, yielding the attained maximum 200. -/
theorem daily_percentile_derivation_witness :
    (200 : ℚ) ∈ truthyVals
        ([⟨100, 100, 100, some 100, some 100, some 100, 10, 0⟩,
            ⟨200, 200, 200, some 200, some 200, some 200, 10, 0⟩].map
          (fun h : HourlyRow => h.p95_latency_ms)) ∧
      ∀ x ∈ truthyVals
          ([⟨100, 100, 100, some 100, some 100, some 100, 10, 0⟩,
              ⟨200, 200, 200, some 200, some 200, some 200, 10, 0⟩].map
            (fun h : HourlyRow => h.p95_latency_ms)), x ≤ (200 : ℚ) :=
  (daily_percentile_derivation
      [⟨100, 100, 100, some 100, some 100, some 100, 10, 0⟩,
        ⟨200, 200, 200, some 200, some 200, some 200, 10, 0⟩]).2.1 200 (by decide)

/-! ### Signal ingest (`receive_signal` in `app/router/signals.py`) and the
queue consumer (`_process_signal` in `app/queue/consumer.py`) -/

/-- The observable effects of one call to the ingest handler: how many
messages it publishes to the signals queue, the HTTP status it returns, and
the in-line processing steps it performs. -/
structure IngestEffects where
  published_messages : ℕ
  status_code : ℕ
  updated_aggregates : Bool
  stored_in_db : Bool
  invalidated_cache : Bool
deriving DecidableEq

/-- The sampling rule shared by `receive_signal` (`signals.py` line 71) and
`_process_signal` (`consumer.py` lines 63-66): store when the status is the
error string or the uniform draw `r` is below the sampling rate. -/
def should_store (status : String) (r rate : ℚ) : Bool :=
  (status == "error") || decide (r < rate)

/-- `receive_signal` (`signals.py` lines 25-85) for an authenticated, valid
request: updates the real-time aggregates, conditionally stores the signal by
the sampling rule, invalidates the tenant cache, and returns 201.  No call to
the queue publisher appears anywhere in the handler, so the number of
published messages is zero on every path. -/
def receive_signal (s : Signal) (r rate : ℚ) : IngestEffects :=
  { published_messages := 0
    status_code := 201
    updated_aggregates := true
    stored_in_db := should_store s.status r rate
    invalidated_cache := true }

/-- The processing steps of the queue consumer `_process_signal`
(`consumer.py` lines 29-78): aggregate update, sampled persistence, cache
invalidation. -/
structure ConsumerEffects where
  updated_aggregates : Bool
  stored_in_db : Bool
  invalidated_cache : Bool
deriving DecidableEq

/-- `_process_signal` (`consumer.py` lines 29-78). -/
def consumer_process_signal (s : Signal) (r rate : ℚ) : ConsumerEffects :=
  { updated_aggregates := true
    stored_in_db := should_store s.status r rate
    invalidated_cache := true }

/-- C4 counterexample: for a concrete authenticated, valid request the
handler publishes zero messages to the queue — not the one message the claim
requires — while still responding 201. -/
theorem receive_signal_publishes_nothing :
    (receive_signal ⟨"success", 100⟩ (1/2) 1).published_messages = 0 ∧
      (receive_signal ⟨"success", 100⟩ (1/2) 1).published_messages ≠ 1 ∧
      (receive_signal ⟨"success", 100⟩ (1/2) 1).status_code = 201 := by
  decide

/-- C4, amended: for every authenticated, valid request the handler publishes
no message to the queue, always responds 201, and performs in-line exactly
the processing steps of the queue consumer (aggregate update, sampled
persistence with errors always stored, cache invalidation); a queue failure
therefore cannot surface as a 503 on this path. -/
theorem receive_signal_inline_processing (s : Signal) (r rate : ℚ) :
    (receive_signal s r rate).published_messages = 0 ∧
      (receive_signal s r rate).status_code = 201 ∧
      (receive_signal s r rate).updated_aggregates =
        (consumer_process_signal s r rate).updated_aggregates ∧
      (receive_signal s r rate).stored_in_db =
        (consumer_process_signal s r rate).stored_in_db ∧
      (receive_signal s r rate).invalidated_cache =
        (consumer_process_signal s r rate).invalidated_cache :=
  ⟨rfl, rfl, rfl, rfl, rfl⟩

/-! ### Threshold store (`update_thresholds` in
`app/ai_engine/threshold_manager.py`, `ThresholdRecommendation` in
`app/ai_engine/schemas.py`) -/

/-- A stored `AIThreshold` row as written by `update_thresholds`. -/
structure AIThresholdRecord where
  cache_latency_ms : ℤ
  circuit_breaker_error_rate : ℚ
  queue_deferral_rpm : ℤ
  load_shedding_rpm : ℤ
  rate_limit_customer_rpm : ℤ
  confidence : ℚ
deriving DecidableEq

/-- The `thresholds` dict argument of `update_thresholds`: each key may be
absent, in which case `.get` falls back to the existing value or the default. -/
structure ThresholdPatch where
  cache_latency_ms : Option ℤ
  circuit_breaker_error_rate : Option ℚ
  queue_deferral_rpm : Option ℤ
  load_shedding_rpm : Option ℤ
  rate_limit_customer_rpm : Option ℤ
deriving DecidableEq

/-- `update_thresholds` (`threshold_manager.py` lines 102-152): upsert the
row, taking each value from the dict when present and otherwise keeping the
existing value (update path) or the module default (create path).  The
function performs no range check and no shed-versus-queue comparison. -/
def update_thresholds (existing : Option AIThresholdRecord)
    (patch : ThresholdPatch) (confidence : ℚ) : AIThresholdRecord :=
  match existing with
  | some e =>
    { cache_latency_ms := patch.cache_latency_ms.getD e.cache_latency_ms
      circuit_breaker_error_rate :=
        patch.circuit_breaker_error_rate.getD e.circuit_breaker_error_rate
      queue_deferral_rpm := patch.queue_deferral_rpm.getD e.queue_deferral_rpm
      load_shedding_rpm := patch.load_shedding_rpm.getD e.load_shedding_rpm
      rate_limit_customer_rpm :=
        patch.rate_limit_customer_rpm.getD e.rate_limit_customer_rpm
      confidence := confidence }
  | none =>
    { cache_latency_ms := patch.cache_latency_ms.getD 500
      circuit_breaker_error_rate := patch.circuit_breaker_error_rate.getD (3/10)
      queue_deferral_rpm := patch.queue_deferral_rpm.getD 80
      load_shedding_rpm := patch.load_shedding_rpm.getD 150
      rate_limit_customer_rpm := patch.rate_limit_customer_rpm.getD 15
      confidence := confidence }

/-- The advisor response as validated by the `ThresholdRecommendation`
schema (`schemas.py` lines 10-61). -/
structure ThresholdRecommendation where
  cache_latency_ms : ℤ
  circuit_breaker_error_rate : ℚ
  queue_deferral_rpm : ℤ
  load_shedding_rpm : ℤ
  rate_limit_customer_rpm : ℤ
  reasoning : String
  confidence : String
deriving DecidableEq

/-- The constraints the `ThresholdRecommendation` schema enforces: the five
field ranges, the shed-above-queue validator, the reasoning length bounds and
the confidence literal. -/
def recommendationValid (rec : ThresholdRecommendation) : Prop :=
  10 ≤ rec.cache_latency_ms ∧ rec.cache_latency_ms ≤ 5000 ∧
    1/100 ≤ rec.circuit_breaker_error_rate ∧ rec.circuit_breaker_error_rate ≤ 1 ∧
    10 ≤ rec.queue_deferral_rpm ∧ rec.queue_deferral_rpm ≤ 1000 ∧
    20 ≤ rec.load_shedding_rpm ∧ rec.load_shedding_rpm ≤ 5000 ∧
    rec.queue_deferral_rpm < rec.load_shedding_rpm ∧
    5 ≤ rec.rate_limit_customer_rpm ∧ rec.rate_limit_customer_rpm ≤ 500 ∧
    50 ≤ rec.reasoning.length ∧ rec.reasoning.length ≤ 1000 ∧
    (rec.confidence = "low" ∨ rec.confidence = "medium" ∨ rec.confidence = "high")

instance (rec : ThresholdRecommendation) : Decidable (recommendationValid rec) := by
  unfold recommendationValid
  infer_instance

/-- The dict the tuner (`background_analyzer.py` lines 109-123) passes to
`update_thresholds`: all five fields of the validated recommendation. -/
def recommendationPatch (rec : ThresholdRecommendation) : ThresholdPatch :=
  { cache_latency_ms := some rec.cache_latency_ms
    circuit_breaker_error_rate := some rec.circuit_breaker_error_rate
    queue_deferral_rpm := some rec.queue_deferral_rpm
    load_shedding_rpm := some rec.load_shedding_rpm
    rate_limit_customer_rpm := some rec.rate_limit_customer_rpm }

/-- The invariant the claim asserts of every stored threshold record: the five
declared ranges and shed-rpm strictly above queue-rpm. -/
def recordInRanges (rec : AIThresholdRecord) : Prop :=
  10 ≤ rec.cache_latency_ms ∧ rec.cache_latency_ms ≤ 5000 ∧
    1/100 ≤ rec.circuit_breaker_error_rate ∧ rec.circuit_breaker_error_rate ≤ 1 ∧
    10 ≤ rec.queue_deferral_rpm ∧ rec.queue_deferral_rpm ≤ 1000 ∧
    20 ≤ rec.load_shedding_rpm ∧ rec.load_shedding_rpm ≤ 5000 ∧
    5 ≤ rec.rate_limit_customer_rpm ∧ rec.rate_limit_customer_rpm ≤ 500 ∧
    rec.queue_deferral_rpm < rec.load_shedding_rpm

instance (rec : AIThresholdRecord) : Decidable (recordInRanges rec) := by
  unfold recordInRanges
  infer_instance

/-- C6 counterexample: `update_thresholds` called with queue-rpm 100 and
shed-rpm 50 stores the record unchanged, so the stored record violates the
shed-above-queue invariant — the Upsert operation enforces no check. -/
theorem update_thresholds_unchecked :
    ¬ recordInRanges
        (update_thresholds none ⟨some 500, some (3/10), some 100, some 50, some 15⟩
          (9/10)) ∧
      ¬ ((update_thresholds none ⟨some 500, some (3/10), some 100, some 50, some 15⟩
            (9/10)).queue_deferral_rpm <
          (update_thresholds none ⟨some 500, some (3/10), some 100, some 50, some 15⟩
              (9/10)).load_shedding_rpm) := by
  constructor
  · intro h
    have hqs := h.2.2.2.2.2.2.2.2.2.2
    simp only [update_thresholds, Option.getD] at hqs
    exact absurd hqs (by norm_num)
  · simp only [update_thresholds, Option.getD]
    norm_num

/-- C6, amended: the range checks and the shed-above-queue invariant are
enforced by the `ThresholdRecommendation` schema on the advisor response, not
by the Upsert; on the tuner path — the only caller, which passes all five
validated fields — the record stored by any Upsert satisfies all five ranges
and shed-rpm > queue-rpm, whatever record existed before. -/
theorem upsert_of_validated_recommendation (existing : Option AIThresholdRecord)
    (rec : ThresholdRecommendation) (conf : ℚ)
    (h : recommendationValid rec) :
    recordInRanges (update_thresholds existing (recommendationPatch rec) conf) := by
  obtain ⟨h1, h2, h3, h4, h5, h6, h7, h8, h9, h10, h11, _, _, _⟩ := h
  cases existing with
  | none =>
    exact ⟨h1, h2, h3, h4, h5, h6, h7, h8, h10, h11, h9⟩
  | some e =>
    exact ⟨h1, h2, h3, h4, h5, h6, h7, h8, h10, h11, h9⟩

/-- Witness for the amended C6: a concrete validated recommendation upserted
over an existing out-of-range record yields an in-range stored record. -/
theorem upsert_of_validated_recommendation_witness :
    recordInRanges
      (update_thresholds (some ⟨9999, 2, 100, 50, 1, 0⟩)
        (recommendationPatch
          ⟨450, 1/4, 90, 160, 20,
            "Traffic is steady and latency is low, so thresholds stay near the defaults.",
            "high"⟩)
        (9/10)) :=
  upsert_of_validated_recommendation (some ⟨9999, 2, 100, 50, 1, 0⟩)
    ⟨450, 1/4, 90, 160, 20,
      "Traffic is steady and latency is low, so thresholds stay near the defaults.",
      "high"⟩
    (9/10)
    ⟨by norm_num, by norm_num, by norm_num, by norm_num, by norm_num, by norm_num,
      by norm_num, by norm_num, by norm_num, by norm_num, by norm_num, by decide,
      by decide, Or.inr (Or.inr rfl)⟩

/-! ### Latency reservoir (`update_realtime_aggregate` in
`app/realtime_aggregates.py`, lines 122-131) -/

/-- A reservoir entry: the ingest sequence number and the latency, standing
for the sorted-set member built from the ingest timestamp and the score set
to the latency. -/
abbrev ReservoirEntry : Type := ℕ × ℚ

/-- The rank order of the latency sorted set: ascending score (the latency),
ties broken by the member, i.e. by ingest order. -/
def rankLt (a b : ReservoirEntry) : Bool :=
  if a.2 < b.2 then true
  else if a.2 = b.2 then decide (a.1 < b.1)
  else false

/-- The rank-least entry of `x :: xs`. -/
def zminEntry (x : ReservoirEntry) (xs : List ReservoirEntry) : ReservoirEntry :=
  xs.foldl (fun m y => if rankLt y m then y else m) x

/-- Remove the rank-least entry — one step of
`zremrangebyrank(latency_key, 0, count - 1001)`, which deletes the
lowest-ranked (lowest-score) members. -/
def removeLowest : List ReservoirEntry → List ReservoirEntry
  | [] => []
  | x :: xs => (x :: xs).erase (zminEntry x xs)

/-- Remove the `k` rank-least entries. -/
def removeKLowest : ℕ → List ReservoirEntry → List ReservoirEntry
  | 0, l => l
  | k + 1, l => removeKLowest k (removeLowest l)

/-- The hardcoded sample cap of the reservoir. -/
def reservoirCap : ℕ := 1000

/-- The reservoir step of `update_realtime_aggregate` (`realtime_aggregates.py`
lines 122-131): `zadd` the new sample, then if the cardinality exceeds 1000
remove the `count - 1000` lowest-ranked members via `zremrangebyrank`. -/
def updateReservoir (res : List ReservoirEntry) (e : ReservoirEntry) :
    List ReservoirEntry :=
  if reservoirCap < (res ++ [e]).length then
    removeKLowest ((res ++ [e]).length - reservoirCap) (res ++ [e])
  else res ++ [e]

/-- The entry with the least ingest sequence number of `x :: xs`. -/
def seqMinEntry (x : ReservoirEntry) (xs : List ReservoirEntry) : ReservoirEntry :=
  xs.foldl (fun m y => if y.1 < m.1 then y else m) x

/-- Remove the oldest entry by ingest order. -/
def removeOldest : List ReservoirEntry → List ReservoirEntry
  | [] => []
  | x :: xs => (x :: xs).erase (seqMinEntry x xs)

/-- Remove the `k` oldest entries by ingest order. -/
def removeKOldest : ℕ → List ReservoirEntry → List ReservoirEntry
  | 0, l => l
  | k + 1, l => removeKOldest k (removeOldest l)

/-- The eviction rule as the spec states it, for comparison with
`updateReservoir`: append the sample and, over the cap, drop the oldest
samples by ingest order. -/
def updateReservoirSpec (res : List ReservoirEntry) (e : ReservoirEntry) :
    List ReservoirEntry :=
  if reservoirCap < (res ++ [e]).length then
    removeKOldest ((res ++ [e]).length - reservoirCap) (res ++ [e])
  else res ++ [e]

/-- A full reservoir: 1000 samples, ingest sequence `i` carrying latency
`1000 - i`, so the oldest sample has the largest latency. -/
def bigReservoir : List ReservoirEntry :=
  (List.range reservoirCap).map (fun i => (i, ((reservoirCap - i : ℕ) : ℚ)))

/-- The tail of `bigReservoir`: the samples with ingest sequence 1 to 999. -/
def bigTail : List ReservoirEntry :=
  ((List.range 999).map Nat.succ).map (fun i => (i, ((reservoirCap - i : ℕ) : ℚ)))

lemma zminEntry_mem (x : ReservoirEntry) (xs : List ReservoirEntry) :
    zminEntry x xs ∈ x :: xs := by
  unfold zminEntry
  induction xs generalizing x with
  | nil => simp
  | cons y ys ih =>
    simp only [List.foldl_cons]
    by_cases h : rankLt y x
    · rw [if_pos h]
      exact List.mem_cons_of_mem _ (ih y)
    · rw [if_neg h]
      rcases List.mem_cons.mp (ih x) with h1 | h1
      · rw [h1]; exact List.mem_cons_self _ _
      · exact List.mem_cons_of_mem _ (List.mem_cons_of_mem _ h1)

lemma removeLowest_append_min (res : List ReservoirEntry) (e : ReservoirEntry)
    (hne : res ≠ []) (hlt : ∀ p ∈ res, rankLt e p = true) (hnm : e ∉ res) :
    removeLowest (res ++ [e]) = res := by
  cases res with
  | nil => exact absurd rfl hne
  | cons r0 rest =>
    have hz : zminEntry r0 (rest ++ [e]) = e := by
      unfold zminEntry
      rw [List.foldl_append]
      simp only [List.foldl_cons, List.foldl_nil]
      have hm : rest.foldl (fun m y => if rankLt y m then y else m) r0 ∈ r0 :: rest :=
        zminEntry_mem r0 rest
      rw [if_pos (hlt _ hm)]
    show removeLowest (r0 :: (rest ++ [e])) = r0 :: rest
    rw [show removeLowest (r0 :: (rest ++ [e])) =
        (r0 :: (rest ++ [e])).erase (zminEntry r0 (rest ++ [e])) from rfl,
      hz, show r0 :: (rest ++ [e]) = (r0 :: rest) ++ [e] from rfl,
      List.erase_append_right _ hnm, List.erase_cons_head, List.append_nil]

lemma seqMinEntry_head (x : ReservoirEntry) (xs : List ReservoirEntry) :
    (∀ p ∈ xs, ¬ p.1 < x.1) → seqMinEntry x xs = x := by
  unfold seqMinEntry
  induction xs with
  | nil => intro _; rfl
  | cons y ys ih =>
    intro h
    simp only [List.foldl_cons]
    rw [if_neg (h y (List.mem_cons_self _ _))]
    exact ih fun p hp => h p (List.mem_cons_of_mem _ hp)

lemma bigReservoir_length : bigReservoir.length = 1000 := by
  simp [bigReservoir, reservoirCap]

lemma bigReservoir_latency_pos : ∀ p ∈ bigReservoir, (0 : ℚ) < p.2 := by
  intro p hp
  simp only [bigReservoir, List.mem_map, List.mem_range, reservoirCap] at hp
  obtain ⟨i, hi, rfl⟩ := hp
  have h1 : 0 < 1000 - i := by omega
  exact_mod_cast Nat.cast_pos.mpr h1

lemma newest_not_mem_bigReservoir : ((1000, 0) : ReservoirEntry) ∉ bigReservoir := by
  intro h
  simp only [bigReservoir, List.mem_map, List.mem_range, reservoirCap] at h
  obtain ⟨i, hi, heq⟩ := h
  have : i = 1000 := congrArg Prod.fst heq
  omega

lemma bigReservoir_cons : bigReservoir = ((0 : ℕ), (1000 : ℚ)) :: bigTail := by
  unfold bigReservoir bigTail
  rw [show reservoirCap = 999 + 1 from rfl, List.range_succ_eq_map]
  simp [reservoirCap]

lemma oldest_not_mem_tail :
    ((0 : ℕ), (1000 : ℚ)) ∉ bigTail ++ [((1000 : ℕ), (0 : ℚ))] := by
  intro h
  rcases List.mem_append.mp h with h | h
  · simp only [bigTail, List.mem_map] at h
    obtain ⟨j, hj, heq⟩ := h
    obtain ⟨j2, _, rfl⟩ := hj
    have : Nat.succ j2 = 0 := congrArg Prod.fst heq
    omega
  · have : (1000 : ℕ) = 0 := (congrArg Prod.fst (List.mem_singleton.mp h)).symm
    omega

lemma removeKLowest_one (l : List ReservoirEntry) :
    removeKLowest 1 l = removeLowest l := rfl

lemma removeKOldest_one (l : List ReservoirEntry) :
    removeKOldest 1 l = removeOldest l := rfl

lemma removeOldest_cons (x : ReservoirEntry) (xs : List ReservoirEntry) :
    removeOldest (x :: xs) = (x :: xs).erase (seqMinEntry x xs) := rfl

lemma updateReservoir_big :
    updateReservoir bigReservoir (1000, 0) = bigReservoir := by
  have hlen2 : (bigReservoir ++ [((1000 : ℕ), (0 : ℚ))]).length = 1001 := by
    simp [bigReservoir_length]
  unfold updateReservoir
  rw [hlen2, if_pos (by norm_num [reservoirCap]),
    show 1001 - reservoirCap = 1 by norm_num [reservoirCap], removeKLowest_one]
  refine removeLowest_append_min _ _ ?_ ?_ newest_not_mem_bigReservoir
  · intro h
    rw [h] at hlen2
    simp at hlen2
  · intro p hp
    unfold rankLt
    rw [if_pos (bigReservoir_latency_pos p hp)]

set_option maxRecDepth 8000 in
lemma updateReservoirSpec_big :
    updateReservoirSpec bigReservoir (1000, 0) = bigTail ++ [(1000, 0)] := by
  have hlen2 : (bigReservoir ++ [((1000 : ℕ), (0 : ℚ))]).length = 1001 := by
    simp [bigReservoir_length]
  unfold updateReservoirSpec
  rw [hlen2, if_pos (by norm_num [reservoirCap]),
    show 1001 - reservoirCap = 1 by norm_num [reservoirCap], removeKOldest_one,
    bigReservoir_cons,
    show (((0 : ℕ), (1000 : ℚ)) :: bigTail) ++ [((1000 : ℕ), (0 : ℚ))] =
      ((0 : ℕ), (1000 : ℚ)) :: (bigTail ++ [((1000 : ℕ), (0 : ℚ))]) from rfl,
    removeOldest_cons, seqMinEntry_head _ _ (fun p _ => Nat.not_lt_zero p.1),
    List.erase_cons_head]

/-- C7: at the failing input — a full reservoir of 1000 samples whose oldest
sample (ingest sequence 0) has the largest latency, receiving a new sample of
latency 0 — the code evicts the newly ingested sample (the lowest latency)
and keeps the oldest one, while the spec rule evicts the oldest sample and
keeps the new one: `zremrangebyrank` selects victims by latency score, not by
ingest order.  The 1000-sample cap itself is respected. -/
theorem reservoir_eviction_divergence :
    updateReservoir bigReservoir (1000, 0) = bigReservoir ∧
      ((1000 : ℕ), (0 : ℚ)) ∉ updateReservoir bigReservoir (1000, 0) ∧
      ((0 : ℕ), (1000 : ℚ)) ∈ updateReservoir bigReservoir (1000, 0) ∧
      ((1000 : ℕ), (0 : ℚ)) ∈ updateReservoirSpec bigReservoir (1000, 0) ∧
      ((0 : ℕ), (1000 : ℚ)) ∉ updateReservoirSpec bigReservoir (1000, 0) ∧
      (updateReservoir bigReservoir (1000, 0)).length = 1000 := by
  refine ⟨updateReservoir_big, ?_, ?_, ?_, ?_, ?_⟩
  · rw [updateReservoir_big]
    exact newest_not_mem_bigReservoir
  · rw [updateReservoir_big, bigReservoir_cons]
    exact List.mem_cons_self _ _
  · rw [updateReservoirSpec_big]
    exact List.mem_append_right _ (List.mem_singleton.mpr rfl)
  · rw [updateReservoirSpec_big]
    exact oldest_not_mem_tail
  · rw [updateReservoir_big]
    exact bigReservoir_length

end ControlPlane
